import Mathlib

/-
Verification development for the cta-ingest repository.

The repository holds two variants of the same program:
  * src/cta-ingest.py          -- the standalone script, called "Main" below
  * src/cta_ingest/__main__.py -- the package variant, called "Pkg" below

Manifests (JSON dicts persisted in an object store) are embedded as
association lists, Python sets of dict keys as `Finset String`, and the
observable actions of a stage (store reads/writes, transfers, subprocess
pipelines, filesystem changes, log lines) as explicit effect traces.
Python dicts preserve insertion order, which the association lists model;
Python `set` iteration order is unspecified, so the stage embeddings fix a
deterministic order (the order of the underlying source dict) — every
property proved below is insensitive to that choice.
-/

namespace CtaIngest

/-! ## Association lists: the embedding of Python dicts -/

/-- Dict lookup: first binding of the key, if any. -/
def alGet {β : Type} : List (String × β) → String → Option β
  | [], _ => none
  | (k1, v) :: rest, k => if k1 = k then some v else alGet rest k

/-- Dict membership test (`k in d`). -/
def alMem {β : Type} (m : List (String × β)) (k : String) : Bool :=
  (alGet m k).isSome

/-- Dict `d.pop(k)`: remove the binding of `k`, keeping the others in order. -/
def alPop {β : Type} (m : List (String × β)) (k : String) : List (String × β) :=
  m.filter (fun kv => kv.1 != k)

/-- Dict assignment `d[k] = v`: update in place, else append at the end. -/
def alSet {β : Type} : List (String × β) → String → β → List (String × β)
  | [], k, v => [(k, v)]
  | (k1, v1) :: rest, k, v =>
      if k1 = k then (k1, v) :: rest else (k1, v1) :: alSet rest k v

/-- Dict `d.setdefault(k, v)`. -/
def alSetdefault {β : Type} (m : List (String × β)) (k : String) (v : β) :
    List (String × β) :=
  if alMem m k then m else m ++ [(k, v)]

/-- List of dict keys in insertion order. -/
def pyKeys {β : Type} (m : List (String × β)) : List String :=
  m.map Prod.fst

/-- Python `set(d)`: the set of keys of a dict. -/
def pyKeySet {β : Type} (m : List (String × β)) : Finset String :=
  (pyKeys m).toFinset

/-! ## Manifest model -/

/-- Inventory entry written by refresh_terminus: absolute path, size and
timestamps of one origin/target file. -/
structure FileDesc where
  path : String
  size : Int
  mtime : Int
  atime : Int
  deriving DecidableEq, Repr

/-- An origin/target inventory manifest: logical-id to file descriptor. -/
abbrev Inventory := List (String × FileDesc)

/-- A stage ledger manifest: logical-id to ordered list of part strings
(local chunk paths or remote part keys). -/
abbrev Ledger := List (String × List String)

/-! ## Set algebra of the stages
Each definition transcribes the delivered/unprocessed computation of one
stage in one variant, applied to the key sets of the three manifests. -/

/-- Shared shape `my_delivered = set(my_state).intersection(target)`. -/
def delivered (m t : Finset String) : Finset String := m ∩ t

/-- Main disassemble, src/cta-ingest.py line 158:
`set(origin) - set(my_state) - set(target) - set(my_delivered)`. -/
def unprocessedDisassembleMain (s m t : Finset String) : Finset String :=
  ((s \ m) \ t) \ delivered m t

/-- Main upload, src/cta-ingest.py line 268:
`set(src_state) - set(my_state) - set(target) - set(my_delivered)`. -/
def unprocessedUploadMain (s m t : Finset String) : Finset String :=
  ((s \ m) \ t) \ delivered m t

/-- Download (identical in both variants), line 197 resp. 184:
`set(src_state) - set(my_state) - set(target)`. -/
def unprocessedDownload (s m t : Finset String) : Finset String :=
  (s \ m) \ t

/-- Pkg disassemble, src/cta_ingest/__main__.py line 160:
`set(origin) - set(my_state) - set(target)`. -/
def unprocessedDisassemblePkg (s m t : Finset String) : Finset String :=
  (s \ m) \ t

/-- Pkg upload, src/cta_ingest/__main__.py line 256:
`set(src_state) - set(target)` — the stage ledger is not subtracted. -/
def unprocessedUploadPkg (s t : Finset String) : Finset String :=
  s \ t

/-! ## Store client: S3_Wrapper.get_from_json -/

/-- Outcome of the underlying object-store read inside get_from_json:
either the blob body (already decoded from JSON), or a botocore
ClientError carrying its error code string. -/
inductive StoreResp (α : Type) where
  | found (body : α)
  | clientError (code : String)
  deriving DecidableEq, Repr

/-- S3_Wrapper.get_from_json (identical in both variants): on a
ClientError whose code is NoSuchKey return the caller-supplied default if
one was given; any other outcome of the except branch raises
NoSuchKeyError; a successful read returns the decoded body. -/
def get_from_json {α : Type} (resp : StoreResp α) (dflt : Option α) :
    Except String α :=
  match resp with
  | .found body => .ok body
  | .clientError code =>
      if code = "NoSuchKey" then
        match dflt with
        | some d => .ok d
        | none => .error "NoSuchKeyError"
      else .error "NoSuchKeyError"

/-! ## Transform pipeline: _run_pipeline -/

/-- Main _run_pipeline, src/cta-ingest.py lines 24-30: after the second
process finishes with return code rc2, raise
`Exception('NonZeroReturnCode', p2.returncode, cmd1, cmd2)` when rc2 is
non-zero. The first process return code rc1 is accepted but never
inspected, exactly as in the source. -/
def runPipelineMain (cmd1 cmd2 : List String) (rc1 rc2 : Int) :
    Except (String × Int × List String × List String) Unit :=
  if rc2 ≠ 0 then .error ("NonZeroReturnCode", rc2, cmd1, cmd2) else .ok ()

/-- Pkg _run_pipeline, src/cta_ingest/__main__.py lines 23-29: raise the
bare `Exception('NonZeroReturnCode')` when rc2 is non-zero; the error
value carries no exit code. rc1 is again ignored. -/
def runPipelinePkg (cmd1 cmd2 : List String) (rc1 rc2 : Int) :
    Except String Unit :=
  if rc2 ≠ 0 then .error "NonZeroReturnCode" else .ok ()

/-! ## Observable effects of a stage run -/

/-- One observable action of a stage: an object-store operation, a spawned
two-process pipeline, a filesystem change, or a log line. `putJson` records
the whole-manifest state written, as put_as_json replaces the whole blob.
`utime` and `chmod` record the touched path; the timestamp values restored
by os.utime come from the origin inventory entry of the processed id. -/
inductive Effect where
  | getJson (key : String)
  | putJson (key : String) (st : Ledger)
  | deleteObject (key : String)
  | listKeys (pre : String)
  | uploadFile (path : String) (key : String)
  | downloadFile (key : String) (path : String)
  | runPipe (cmd1 cmd2 : List String)
  | logInfo (msg : String)
  | logWarn (msg : String)
  | logError (msg : String)
  | rmdirr (path : String)
  | mkdir (path : String)
  | utime (path : String)
  | chmod (path : String)
  | rename (src dst : String)
  deriving DecidableEq, Repr

/-- Recognizer for a ledger persist (put_as_json). -/
def Effect.isPut : Effect → Bool
  | .putJson _ _ => true
  | _ => false

/-- Recognizer for a manifest fetch (get_from_json). -/
def Effect.isGet : Effect → Bool
  | .getJson _ => true
  | _ => false

/-- Recognizer for a blob upload. -/
def Effect.isUpload : Effect → Bool
  | .uploadFile _ _ => true
  | _ => false

/-- Recognizer for a part transfer in either direction. -/
def Effect.isTransfer : Effect → Bool
  | .uploadFile _ _ => true
  | .downloadFile _ _ => true
  | _ => false

/-- Recognizer for any log line. -/
def Effect.isLog : Effect → Bool
  | .logInfo _ => true
  | .logWarn _ => true
  | .logError _ => true
  | _ => false

/-- Recognizer for a file move into the destination directory. -/
def Effect.isRename : Effect → Bool
  | .rename _ _ => true
  | _ => false

/-- Recognizer for a spawned transform pipeline. -/
def Effect.isRunPipe : Effect → Bool
  | .runPipe _ _ => true
  | _ => false

/-- Recognizer for every effect that mutates remote or local state: ledger
writes, blob deletes and transfers, spawned pipelines and filesystem
changes. Manifest fetches, key listings and log lines are read-only. -/
def Effect.isMutation : Effect → Bool
  | .putJson _ _ => true
  | .deleteObject _ => true
  | .uploadFile _ _ => true
  | .downloadFile _ _ => true
  | .runPipe _ _ => true
  | .rmdirr _ => true
  | .mkdir _ => true
  | .utime _ => true
  | .chmod _ => true
  | .rename _ _ => true
  | _ => false

/-- Structural scan returning the final slash-separated segment of a
character list, accumulating the current segment in reverse. -/
def basenameAux (cur : List Char) : List Char → List Char
  | [] => cur.reverse
  | c :: cs => if c = '/' then basenameAux [] cs else basenameAux (c :: cur) cs

/-- Python `Path(s).name` for the slash-separated paths this program
builds: the text after the last slash. -/
def basename (s : String) : String :=
  String.mk (basenameAux [] s.data)

/-! ## Stage engine: upload
Both variants first clean up delivered ids (delete each recorded remote
key, drop the id, persist), then list the remote keys under the fixed
prefix string "parts" once, then process unprocessed ids part by part. -/

/-- Inner part loop of Main upload, src/cta-ingest.py lines 285-292: for
each local part path, derive the key by prefixing "parts"; a key already
in the remote listing is only logged (continue skips both the transfer and
the ledger append); otherwise transfer and append. Returns the keys newly
appended to the ledger entry, in order, and the emitted effects. -/
def uploadPartsMain (uploaded : List String) : List String → List String × List Effect
  | [] => ([], [])
  | p :: ps =>
      let key := "parts" ++ p
      let rest := uploadPartsMain uploaded ps
      if key ∈ uploaded then
        (rest.1, Effect.logWarn ("Key " ++ key ++ " already uploaded") :: rest.2)
      else
        (key :: rest.1,
          Effect.logInfo ("Uploading " ++ p ++ " as " ++ key) ::
            Effect.uploadFile p key :: rest.2)

/-- Inner part loop of Pkg upload, src/cta_ingest/__main__.py lines
259-264: same control flow as Main but without log lines. -/
def uploadPartsPkg (uploaded : List String) : List String → List String × List Effect
  | [] => ([], [])
  | p :: ps =>
      let key := "parts" ++ p
      let rest := uploadPartsPkg uploaded ps
      if key ∈ uploaded then (rest.1, rest.2)
      else (key :: rest.1, Effect.uploadFile p key :: rest.2)

/-- Main upload processing of one unprocessed id, src/cta-ingest.py lines
284-293: setdefault the ledger entry, run the part loop, persist the
ledger once after the loop. -/
def uploadProcessOneMain (uploaded : List String) (src : Ledger) (st : Ledger)
    (fname : String) : Ledger × List Effect :=
  let st1 := alSetdefault st fname []
  let r := uploadPartsMain uploaded ((alGet src fname).getD [])
  let st2 := alSet st1 fname (((alGet st1 fname).getD []) ++ r.1)
  (st2, r.2 ++ [Effect.putJson "upload.json" st2])

/-- Pkg upload processing of one unprocessed id, src/cta_ingest/__main__.py
lines 258-265. -/
def uploadProcessOnePkg (uploaded : List String) (src : Ledger) (st : Ledger)
    (fname : String) : Ledger × List Effect :=
  let st1 := alSetdefault st fname []
  let r := uploadPartsPkg uploaded ((alGet src fname).getD [])
  let st2 := alSet st1 fname (((alGet st1 fname).getD []) ++ r.1)
  (st2, r.2 ++ [Effect.putJson "upload.json" st2])

/-- Loop of Main upload over the unprocessed ids. -/
def uploadLoopMain (uploaded : List String) (src : Ledger) :
    Ledger → List String → Ledger × List Effect
  | st, [] => (st, [])
  | st, f :: fs =>
      let r1 := uploadProcessOneMain uploaded src st f
      let r2 := uploadLoopMain uploaded src r1.1 fs
      (r2.1, r1.2 ++ r2.2)

/-- Loop of Pkg upload over the unprocessed ids. -/
def uploadLoopPkg (uploaded : List String) (src : Ledger) :
    Ledger → List String → Ledger × List Effect
  | st, [] => (st, [])
  | st, f :: fs =>
      let r1 := uploadProcessOnePkg uploaded src st f
      let r2 := uploadLoopPkg uploaded src r1.1 fs
      (r2.1, r1.2 ++ r2.2)

/-- Main upload cleanup of one delivered id, src/cta-ingest.py lines
275-280: delete every recorded remote key, drop the id, persist. -/
def uploadCleanupOneMain (st : Ledger) (fname : String) : Ledger × List Effect :=
  let st2 := alPop st fname
  (st2,
    (((alGet st fname).getD []).map
        (fun k => [Effect.logInfo ("Cleaning up " ++ k), Effect.deleteObject k])).flatten
      ++ [Effect.putJson "upload.json" st2])

/-- Pkg upload cleanup of one delivered id, src/cta_ingest/__main__.py
lines 249-253: same as Main without the log lines. -/
def uploadCleanupOnePkg (st : Ledger) (fname : String) : Ledger × List Effect :=
  let st2 := alPop st fname
  (st2, ((alGet st fname).getD []).map Effect.deleteObject
      ++ [Effect.putJson "upload.json" st2])

/-- Loop of Main upload over the delivered ids. -/
def uploadCleanupMain : Ledger → List String → Ledger × List Effect
  | st, [] => (st, [])
  | st, f :: fs =>
      let r1 := uploadCleanupOneMain st f
      let r2 := uploadCleanupMain r1.1 fs
      (r2.1, r1.2 ++ r2.2)

/-- Loop of Pkg upload over the delivered ids. -/
def uploadCleanupPkg : Ledger → List String → Ledger × List Effect
  | st, [] => (st, [])
  | st, f :: fs =>
      let r1 := uploadCleanupOnePkg st f
      let r2 := uploadCleanupPkg r1.1 fs
      (r2.1, r1.2 ++ r2.2)

/-- Main upload stage, src/cta-ingest.py lines 261-293. Inputs are the
three fetched manifests (upload ledger, disassemble ledger, target
inventory), the remote listing under the "parts" prefix, and the dry-run
flag; the result is the final in-memory ledger and the effect trace.
Python set iteration is embedded as iteration over the source dict order;
the delivered and unprocessed sets themselves are the ones computed by
`delivered` and `unprocessedUploadMain`. -/
def uploadMain (my0 src : Ledger) (target : Inventory) (uploaded : List String)
    (dryRun : Bool) : Ledger × List Effect :=
  let gets := [Effect.getJson "upload.json", Effect.getJson "disassemble.json",
    Effect.getJson "target.json"]
  let deliveredL := (pyKeys my0).filter
    (fun k => decide (k ∈ delivered (pyKeySet my0) (pyKeySet target)))
  let unprocL := (pyKeys src).filter
    (fun k => decide (k ∈ unprocessedUploadMain (pyKeySet src) (pyKeySet my0) (pyKeySet target)))
  if dryRun then
    (my0, gets ++
      [Effect.logInfo ("Dry run: would have cleaned-up " ++ String.intercalate " " deliveredL),
       Effect.logInfo ("Dry run: would have processed " ++ String.intercalate " " unprocL)])
  else
    let r1 := uploadCleanupMain my0 deliveredL
    let r2 := uploadLoopMain uploaded src r1.1 unprocL
    (r2.1, gets ++ r1.2 ++ [Effect.listKeys "parts"] ++ r2.2)

/-- Pkg upload stage, src/cta_ingest/__main__.py lines 242-265: no dry-run
flag, target fetched with a default, the remote listing taken between the
cleanup loop and the unprocessed loop, and the unprocessed set computed
without subtracting the stage ledger (`unprocessedUploadPkg`). -/
def uploadPkg (my0 src : Ledger) (target : Inventory) (uploaded : List String) :
    Ledger × List Effect :=
  let gets := [Effect.getJson "upload.json", Effect.getJson "disassemble.json",
    Effect.getJson "target.json"]
  let deliveredL := (pyKeys my0).filter
    (fun k => decide (k ∈ delivered (pyKeySet my0) (pyKeySet target)))
  let r1 := uploadCleanupPkg my0 deliveredL
  let unprocL := (pyKeys src).filter
    (fun k => decide (k ∈ unprocessedUploadPkg (pyKeySet src) (pyKeySet target)))
  let r2 := uploadLoopPkg uploaded src r1.1 unprocL
  (r2.1, gets ++ r1.2 ++ [Effect.listKeys "parts"] ++ r2.2)

/-! ## Stage engine: download -/

/-- Inner part loop of Main download, src/cta-ingest.py lines 203-207: for
each part key in source order, download it to the chunks directory under
the basename of the key and collect the destination path for the ledger. -/
def downloadPartsMain (fname chunksDir : String) : List String → List String × List Effect
  | [] => ([], [])
  | k :: ks =>
      let dst := chunksDir ++ "/" ++ basename k
      let rest := downloadPartsMain fname chunksDir ks
      (dst :: rest.1,
        Effect.logInfo ("Downloading " ++ fname ++ " " ++ k) ::
          Effect.downloadFile k dst :: rest.2)

/-- Main download processing of one unprocessed id, src/cta-ingest.py
lines 198-208: setdefault, create the chunks directory, download the parts
in source order, persist the ledger once after the loop. -/
def downloadProcessOneMain (workDir : String) (src : Ledger) (st : Ledger)
    (fname : String) : Ledger × List Effect :=
  let st1 := alSetdefault st fname []
  let chunksDir := workDir ++ "/" ++ fname
  let r := downloadPartsMain fname chunksDir ((alGet src fname).getD [])
  let st2 := alSet st1 fname (((alGet st1 fname).getD []) ++ r.1)
  (st2, Effect.mkdir chunksDir :: r.2 ++ [Effect.putJson "download.json" st2])

/-- Main download cleanup of one delivered id, src/cta-ingest.py lines
191-195: remove the chunks directory, drop the id, persist. -/
def downloadCleanupOneMain (workDir : String) (st : Ledger) (fname : String) :
    Ledger × List Effect :=
  let st2 := alPop st fname
  (st2, [Effect.logInfo ("Cleaning up " ++ workDir ++ "/" ++ fname),
    Effect.rmdirr (workDir ++ "/" ++ fname), Effect.putJson "download.json" st2])

/-- Loop of Main download over the delivered ids. -/
def downloadCleanupMain (workDir : String) : Ledger → List String → Ledger × List Effect
  | st, [] => (st, [])
  | st, f :: fs =>
      let r1 := downloadCleanupOneMain workDir st f
      let r2 := downloadCleanupMain workDir r1.1 fs
      (r2.1, r1.2 ++ r2.2)

/-- Loop of Main download over the unprocessed ids. -/
def downloadLoopMain (workDir : String) (src : Ledger) :
    Ledger → List String → Ledger × List Effect
  | st, [] => (st, [])
  | st, f :: fs =>
      let r1 := downloadProcessOneMain workDir src st f
      let r2 := downloadLoopMain workDir src r1.1 fs
      (r2.1, r1.2 ++ r2.2)

/-- Main download stage, src/cta-ingest.py lines 184-208: fetch the three
manifests, clean up delivered ids, then process the unprocessed ids
(`unprocessedDownload`) part by part. -/
def downloadMain (workDir : String) (my0 src : Ledger) (target : Inventory) :
    Ledger × List Effect :=
  let gets := [Effect.getJson "download.json", Effect.getJson "upload.json",
    Effect.getJson "target.json"]
  let deliveredL := (pyKeys my0).filter
    (fun k => decide (k ∈ delivered (pyKeySet my0) (pyKeySet target)))
  let r1 := downloadCleanupMain workDir my0 deliveredL
  let unprocL := (pyKeys src).filter
    (fun k => decide (k ∈ unprocessedDownload (pyKeySet src) (pyKeySet my0) (pyKeySet target)))
  let r2 := downloadLoopMain workDir src r1.1 unprocL
  (r2.1, gets ++ r1.2 ++ r2.2)

/-- Formalization of the phrase: the stage ledger is persisted after each
part transfer, before the next transfer begins. After every transfer
effect, the next transfer-or-persist event of the trace must be a
persist. -/
def persistAfterEachTransfer : List Effect → Bool
  | [] => true
  | e :: rest =>
      if e.isTransfer then
        (match rest.find? (fun x => x.isPut || x.isTransfer) with
          | some x => x.isPut
          | none => false) && persistAfterEachTransfer rest
      else persistAfterEachTransfer rest

/-! ## Stage engine: disassemble (Main variant; the Pkg variant has no
dry-run flag and differs only in logging, fixed part size and the
unprocessed set `unprocessedDisassemblePkg`). The filesystem is supplied
as two oracles: `fsExists` answers Path.exists checks and `listDir` lists
the chunk files found in a directory after the split. -/

/-- Compression command of Main disassemble, src/cta-ingest.py line 178. -/
def zstdCmdMain (path : String) : List String :=
  ["zstd", "--threads=0", "--stdout", path]

/-- Split command of Main disassemble, src/cta-ingest.py line 179. -/
def splitCmd (partSize : Int) (chunkDir : String) : List String :=
  ["split", "-b", toString partSize, "-", chunkDir ++ "/"]

/-- Placeholder descriptor: a lookup of a logical-id missing from the
origin inventory raises KeyError in Python; the embedding totalizes with
this dummy, which no reachable call uses because every unprocessed id is
an origin key. -/
def emptyDesc : FileDesc := { path := "", size := 0, mtime := 0, atime := 0 }

/-- Main disassemble processing of one unprocessed id, src/cta-ingest.py
lines 171-182: remove a stale chunk directory if present, recreate it, run
the nice zstd | split pipeline on the origin path of the id, record the
listed chunk files as the ledger entry and persist. -/
def disassembleProcessOneMain (workDir : String) (partSize : Int) (origin : Inventory)
    (fsExists : String → Bool) (listDir : String → List String)
    (st : Ledger) (fname : String) : Ledger × List Effect :=
  let chunkDir := workDir ++ "/" ++ fname
  let st2 := alSet st fname (listDir chunkDir)
  (st2,
    Effect.logInfo ("Compressing and splitting " ++ fname) ::
      (if fsExists chunkDir then [Effect.rmdirr chunkDir] else []) ++
      Effect.mkdir chunkDir ::
      Effect.runPipe (["nice", "-n", "19"] ++ zstdCmdMain ((alGet origin fname).getD emptyDesc).path)
        (splitCmd partSize chunkDir) ::
      [Effect.putJson "disassemble.json" st2])

/-- Main disassemble cleanup of one delivered id, src/cta-ingest.py lines
165-169. -/
def disassembleCleanupOneMain (workDir : String) (st : Ledger) (fname : String) :
    Ledger × List Effect :=
  let st2 := alPop st fname
  (st2, [Effect.logInfo ("Cleaning up " ++ workDir ++ "/" ++ fname),
    Effect.rmdirr (workDir ++ "/" ++ fname), Effect.putJson "disassemble.json" st2])

/-- Loop of Main disassemble over the delivered ids. -/
def disassembleCleanupMain (workDir : String) : Ledger → List String → Ledger × List Effect
  | st, [] => (st, [])
  | st, f :: fs =>
      let r1 := disassembleCleanupOneMain workDir st f
      let r2 := disassembleCleanupMain workDir r1.1 fs
      (r2.1, r1.2 ++ r2.2)

/-- Loop of Main disassemble over the unprocessed ids. -/
def disassembleLoopMain (workDir : String) (partSize : Int) (origin : Inventory)
    (fsExists : String → Bool) (listDir : String → List String) :
    Ledger → List String → Ledger × List Effect
  | st, [] => (st, [])
  | st, f :: fs =>
      let r1 := disassembleProcessOneMain workDir partSize origin fsExists listDir st f
      let r2 := disassembleLoopMain workDir partSize origin fsExists listDir r1.1 fs
      (r2.1, r1.2 ++ r2.2)

/-- Main disassemble stage, src/cta-ingest.py lines 151-182: fetch the
three manifests (its own ledger and origin with defaults, target without),
compute the two sets, and on a dry run only log the two sets and return;
otherwise clean up delivered ids then process unprocessed ids. -/
def disassembleMain (workDir : String) (partSize : Int) (my0 : Ledger)
    (origin target : Inventory) (fsExists : String → Bool)
    (listDir : String → List String) (dryRun : Bool) : Ledger × List Effect :=
  let gets := [Effect.getJson "disassemble.json", Effect.getJson "origin.json",
    Effect.getJson "target.json"]
  let deliveredL := (pyKeys my0).filter
    (fun k => decide (k ∈ delivered (pyKeySet my0) (pyKeySet target)))
  let unprocL := (pyKeys origin).filter
    (fun k => decide (k ∈ unprocessedDisassembleMain (pyKeySet origin) (pyKeySet my0) (pyKeySet target)))
  if dryRun then
    (my0, gets ++
      [Effect.logInfo ("Dry run: would have cleaned-up " ++ String.intercalate " " deliveredL),
       Effect.logInfo ("Dry run: would have processed " ++ String.intercalate " " unprocL)])
  else
    let r1 := disassembleCleanupMain workDir my0 deliveredL
    let r2 := disassembleLoopMain workDir partSize origin fsExists listDir r1.1 unprocL
    (r2.1, gets ++ r1.2 ++ r2.2)

/-! ## Stage engine: reassemble -/

/-- Lexicographic comparison of char lists by code point, the order Python
uses to compare strings. -/
def charListLe : List Char → List Char → Bool
  | [], _ => true
  | _ :: _, [] => false
  | a :: as, b :: bs => if a < b then true else if b < a then false else charListLe as bs

/-- Python string comparison `a <= b`. -/
def strLe (a b : String) : Bool := charListLe a.data b.data

/-- Python `sorted` on a list of strings. -/
def pySorted (l : List String) : List String :=
  List.insertionSort (fun a b => strLe a b = true) l

/-- Concatenation command of Main reassemble, src/cta-ingest.py line 219:
`['cat'] + sorted(part_paths)`. -/
def catCmdMain (partPaths : List String) : List String :=
  "cat" :: pySorted partPaths

/-- Concatenation command of Pkg reassemble, src/cta_ingest/__main__.py
line 204: `['cat'] + part_paths`, in ledger order. -/
def catCmdPkg (partPaths : List String) : List String :=
  "cat" :: partPaths

/-- Decompression command of reassemble (identical in both variants). -/
def zstdDecompCmd (outPath : String) : List String :=
  ["zstd", "--quiet", "--force", "--decompress", "-o", outPath]

/-- Main reassemble processing of one ledger entry, src/cta-ingest.py
lines 216-231: concatenate the sorted parts through the decompression
pipeline into the work directory, restore timestamps, mark read-only, then
either log an error and skip the move when a file of the same name already
exists at the destination, or log and move the output there. -/
def reassembleBlockMain (workDir dstDir : String) (fsExists : String → Bool)
    (entry : String × List String) : List Effect :=
  let outPath := workDir ++ "/" ++ basename entry.1
  let dstPath := dstDir ++ "/" ++ basename entry.1
  [Effect.logInfo ("Processing " ++ entry.1),
   Effect.runPipe (catCmdMain entry.2) (zstdDecompCmd outPath),
   Effect.utime outPath, Effect.chmod outPath] ++
  (if fsExists dstPath then [Effect.logError (dstPath ++ " exists")]
   else [Effect.logInfo (dstPath ++ " has been reassembled"),
     Effect.rename outPath dstPath])

/-- Pkg reassemble processing of one ledger entry, src/cta_ingest/
__main__.py lines 202-214: as Main but with the parts concatenated in
ledger order and with no log lines, in particular nothing is reported when
the move is skipped. -/
def reassembleBlockPkg (workDir dstDir : String) (fsExists : String → Bool)
    (entry : String × List String) : List Effect :=
  let outPath := workDir ++ "/" ++ basename entry.1
  let dstPath := dstDir ++ "/" ++ basename entry.1
  [Effect.runPipe (catCmdPkg entry.2) (zstdDecompCmd outPath),
   Effect.utime outPath, Effect.chmod outPath] ++
  (if fsExists dstPath then []
   else [Effect.rename outPath dstPath])

/-- Main reassemble stage, src/cta-ingest.py lines 210-231: create the two
directories, fetch the download ledger and the origin inventory (both
without defaults), then process every ledger entry in order. -/
def reassembleMain (workDir dstDir : String) (src : Ledger)
    (fsExists : String → Bool) : List Effect :=
  [Effect.mkdir workDir, Effect.mkdir dstDir,
   Effect.getJson "download.json", Effect.getJson "origin.json"] ++
  (src.map (reassembleBlockMain workDir dstDir fsExists)).flatten

/-- Pkg reassemble stage, src/cta_ingest/__main__.py lines 196-214. -/
def reassemblePkg (workDir dstDir : String) (src : Ledger)
    (fsExists : String → Bool) : List Effect :=
  [Effect.mkdir workDir, Effect.mkdir dstDir,
   Effect.getJson "download.json", Effect.getJson "origin.json"] ++
  (src.map (reassembleBlockPkg workDir dstDir fsExists)).flatten

/-! ## Progress meter (Main variant, src/cta-ingest.py lines 79-149)
Wall-clock instants and byte counts are embedded as rationals. Python
float division raises ZeroDivisionError on a zero divisor, so each
division of ProgressMeter.__call__ is embedded as an explicit
zero-divisor check in the evaluation order of the source. The string
rendering helpers (readable size and time) are pure formatting and cannot
raise; the reports carry the computed numbers instead of the rendered
text. -/

/-- Mutable fields of a ProgressMeter. The fields Python initializes to
None are embedded with placeholder zeroes next to the `firstTime := none`
marker; __call__ assigns all of them on its first invocation before any
read, exactly as the source does. -/
structure MeterState where
  size : ℚ
  updateInterval : ℚ
  count : ℚ
  firstTime : Option ℚ
  firstCount : ℚ
  lastUpdateTime : ℚ
  lastUpdateCount : ℚ
  deriving DecidableEq, Repr

/-- ProgressMeter.__init__ with the given total size and update interval. -/
def meterInit (size updateInterval : ℚ) : MeterState :=
  { size := size, updateInterval := updateInterval, count := 0,
    firstTime := none, firstCount := 0, lastUpdateTime := 0, lastUpdateCount := 0 }

/-- One emitted report line: the final summary, or a periodic progress
line carrying elapsed time, counts, percentage, instantaneous rate,
average rate and the ETA derived from the instantaneous rate. -/
inductive MeterReport where
  | finalSummary (size elapsed : ℚ)
  | progressLine (elapsed count size percent updateRate averageRate etaCur : ℚ)
  deriving DecidableEq, Repr

/-- ProgressMeter.__call__, src/cta-ingest.py lines 116-149, at wall-clock
instant `now` with increment `numBytes`: on the first call the last-update
clock is backdated by interval minus ten seconds; the final summary is
emitted when the cumulative count reaches the total; otherwise a progress
line is emitted when at least the update interval has elapsed since the
last report, computing in source order the percentage, the instantaneous
rate since the last report, the average rate, and the ETA obtained by
dividing the remaining bytes by the instantaneous rate. -/
def meterCall (st0 : MeterState) (now numBytes : ℚ) :
    Except String (MeterState × List MeterReport) :=
  let st1 :=
    match st0.firstTime with
    | none =>
        { st0 with firstTime := some now, firstCount := numBytes,
                   lastUpdateTime := now - st0.updateInterval + 10,
                   lastUpdateCount := numBytes }
    | some _ => st0
  let st2 := { st1 with count := st1.count + numBytes }
  let tObserved := now - (st2.firstTime.getD now)
  let tSinceUpdate := now - st2.lastUpdateTime
  if st2.count = st2.size then
    .ok (st2, [.finalSummary st2.size tObserved])
  else if st2.updateInterval ≤ tSinceUpdate then
    if st2.size = 0 then .error "ZeroDivisionError"
    else
      let percent := st2.count / st2.size * 100
      let updateDelta := st2.count - st2.lastUpdateCount
      if tSinceUpdate = 0 then .error "ZeroDivisionError"
      else
        let updateRate := updateDelta / tSinceUpdate
        if tObserved = 0 then .error "ZeroDivisionError"
        else
          let averageRate := st2.count / tObserved
          if updateRate = 0 then .error "ZeroDivisionError"
          else
            let etaCur := (st2.size - st2.count) / updateRate
            .ok ({ st2 with lastUpdateTime := now, lastUpdateCount := st2.count },
              [.progressLine tObserved st2.count st2.size percent updateRate averageRate etaCur])
  else .ok (st2, [])

/-- Run a sequence of (instant, byte count) callbacks through the meter,
stopping at the first raised exception. -/
def meterRun (st : MeterState) : List (ℚ × ℚ) → Except String MeterState
  | [] => .ok st
  | c :: cs =>
      match meterCall st c.1 c.2 with
      | .error e => .error e
      | .ok r => meterRun r.1 cs

/-! ## Helper lemmas -/

/-- Totality of the lexicographic comparison of char lists. -/
theorem charListLe_total : ∀ a b : List Char, charListLe a b = true ∨ charListLe b a = true
  | [], _ => Or.inl rfl
  | _ :: _, [] => Or.inr rfl
  | a :: as, b :: bs => by
      rcases lt_trichotomy a b with hab | hab | hab
      · left; simp [charListLe, hab]
      · subst hab
        rcases charListLe_total as bs with h | h
        · left; simp [charListLe, lt_irrefl, h]
        · right; simp [charListLe, lt_irrefl, h]
      · right; simp [charListLe, hab]

/-- Transitivity of the lexicographic comparison of char lists. -/
theorem charListLe_trans : ∀ a b c : List Char,
    charListLe a b = true → charListLe b c = true → charListLe a c = true
  | [], _, _, _, _ => rfl
  | _ :: _, [], _, h, _ => by simp [charListLe] at h
  | _ :: _, _ :: _, [], _, h => by simp [charListLe] at h
  | a :: as, b :: bs, c :: cs, h1, h2 => by
      rcases lt_trichotomy a b with hab | hab | hab
      · rcases lt_trichotomy b c with hbc | hbc | hbc
        · simp [charListLe, lt_trans hab hbc]
        · subst hbc; simp [charListLe, hab]
        · exfalso; simp [charListLe, hbc, lt_asymm hbc] at h2
      · subst hab
        simp only [charListLe, lt_irrefl, if_false] at h1
        rcases lt_trichotomy a c with hac | hac | hac
        · simp [charListLe, hac]
        · subst hac
          simp only [charListLe, lt_irrefl, if_false] at h2 ⊢
          exact charListLe_trans as bs cs h1 h2
        · exfalso; simp [charListLe, hac, lt_asymm hac] at h2
      · exfalso; simp [charListLe, hab, lt_asymm hab] at h1

/-- The inner part loop of Main upload never persists the ledger. -/
theorem uploadPartsMain_no_put (u : List String) (ps : List String) :
    (uploadPartsMain u ps).2.filter Effect.isPut = [] := by
  induction ps with
  | nil => rfl
  | cons p ps ih =>
      by_cases h : ("parts" ++ p) ∈ u <;>
        simp [uploadPartsMain, h, ih, Effect.isPut]

/-- The inner part loop of Main download never persists the ledger. -/
theorem downloadPartsMain_no_put (f d : String) (ks : List String) :
    (downloadPartsMain f d ks).2.filter Effect.isPut = [] := by
  induction ks with
  | nil => rfl
  | cons k ks ih => simp [downloadPartsMain, ih, Effect.isPut]

/-- Every processed ledger entry of Main reassemble spawns exactly one
transform pipeline, whatever the destination-conflict check answers. -/
theorem reassembleBlockMain_one_pipe (w d : String) (ex : String → Bool)
    (e : String × List String) :
    ((reassembleBlockMain w d ex e).filter Effect.isRunPipe).length = 1 := by
  by_cases h : ex (d ++ "/" ++ basename e.1) = true <;>
    simp [reassembleBlockMain, h, Effect.isRunPipe]

/-- Main reassemble spawns one pipeline per download-ledger entry: a
destination conflict never stops the loop over the remaining entries. -/
theorem reassembleMain_processes_all (w d : String) (ex : String → Bool) :
    ∀ src : Ledger, ((reassembleMain w d src ex).filter Effect.isRunPipe).length = src.length := by
  intro src
  have aux : ∀ l : Ledger,
      (((l.map (reassembleBlockMain w d ex)).flatten).filter Effect.isRunPipe).length = l.length := by
    intro l
    induction l with
    | nil => rfl
    | cons e es ih =>
        simp only [List.map_cons, List.flatten_cons, List.filter_append, List.length_append, ih]
        rw [reassembleBlockMain_one_pipe]
        simp [Nat.add_comm]
  simpa [reassembleMain, List.filter_append, Effect.isRunPipe] using aux src

/-! ## The claims -/

/-- Claim C1, counterexample. The claim states that for every stage the
unprocessed set equals keys of the source minus keys of the stage ledger
minus keys of target, and that an id recorded in the stage ledger is never
reprocessed. The Pkg upload stage computes `set(src_state) - set(target)`
without subtracting its own ledger: with source keys a, ledger keys a and
empty target, a is classified unprocessed although it is recorded, and the
Pkg upload run transfers a part for it again. -/
theorem claim_C1_counterexample :
    ("a" ∈ unprocessedUploadPkg {"a"} (∅ : Finset String)) ∧
    unprocessedUploadPkg {"a"} ∅ ≠
      ((({"a"} : Finset String) \ ({"a"} : Finset String)) \ (∅ : Finset String)) ∧
    ((uploadPkg [("a", ["partsp"])] [("a", ["p"])] [] []).2.filter Effect.isUpload) ≠ [] := by
  decide

/-- Claim C1, amended. In both variants of disassemble and download, and
in the Main variant of upload, the unprocessed set equals keys of the
source minus keys of the stage ledger minus keys of target — the extra
subtraction of the delivered set in the Main stages is redundant — and an
id recorded in the stage ledger is never classified unprocessed there; the
Pkg upload variant instead computes source minus target only. -/
theorem claim_C1_amended (s m t : Finset String) :
    (unprocessedDisassembleMain s m t = (s \ m) \ t ∧
     unprocessedUploadMain s m t = (s \ m) \ t ∧
     unprocessedDownload s m t = (s \ m) \ t ∧
     unprocessedDisassemblePkg s m t = (s \ m) \ t ∧
     unprocessedUploadPkg s t = s \ t) ∧
    (∀ k, k ∈ m → k ∉ unprocessedUploadMain s m t) := by
  have h : ((s \ m) \ t) \ delivered m t = (s \ m) \ t := by
    ext x
    simp only [delivered, Finset.mem_sdiff, Finset.mem_inter]
    tauto
  refine ⟨⟨h, h, rfl, rfl, rfl⟩, ?_⟩
  intro k hk
  rw [show unprocessedUploadMain s m t = (s \ m) \ t from h]
  simp only [Finset.mem_sdiff]
  tauto

/-- Claim C1, witness of the amended statement at concrete manifests. -/
theorem claim_C1_witness :
    ("a" ∈ ({"a"} : Finset String)) ∧
    "a" ∉ unprocessedUploadMain {"a", "b"} {"a"} (∅ : Finset String) :=
  ⟨by decide, (claim_C1_amended {"a", "b"} {"a"} ∅).2 "a" (by decide)⟩

/-- Claim C2. The claim states that a chunk whose derived key already
appears in the remote listing is not transferred again but the key is
still appended to the ledger entry. In both variants the listing hit
executes `continue`, which skips the append as well: with one unprocessed
id owning one chunk whose key is already listed, the run transfers nothing
(as claimed) but persists the entry as the empty list, the key missing
from it (contradicting the claim and leaving the recorded id without its
remote key for the later cleanup). -/
theorem claim_C2_key_not_recorded :
    (uploadMain [] [("f", ["/w/f/aa"])] [] ["parts/w/f/aa"] false).1 = [("f", [])] ∧
    ((uploadMain [] [("f", ["/w/f/aa"])] [] ["parts/w/f/aa"] false).2.filter Effect.isUpload) = [] ∧
    (uploadPkg [] [("f", ["/w/f/aa"])] [] ["parts/w/f/aa"]).1 = [("f", [])] := by
  decide

/-- Claim C3, counterexample. The claim states that reassemble
concatenates part files in sorted order regardless of the order recorded
in the ledger entry. The Pkg variant passes the ledger list to cat as it
is: on the entry f with parts listed as b then a, the spawned pipeline
concatenates b before a, while sorted order would be a before b. -/
theorem claim_C3_counterexample :
    ((reassemblePkg "w" "d" [("f", ["b", "a"])] (fun _ => false)).filter Effect.isRunPipe) =
      [Effect.runPipe ["cat", "b", "a"] (zstdDecompCmd "w/f")] ∧
    pySorted ["b", "a"] = ["a", "b"] ∧
    (["b", "a"] : List String) ≠ ["a", "b"] := by
  decide

/-- Claim C3, amended. The Main variant of reassemble concatenates every
entry in sorted lexicographic order regardless of ledger order: the
argument list it passes to cat is a sorted permutation of the recorded
part paths. The Pkg variant concatenates in ledger order as recorded. -/
theorem claim_C3_amended (parts : List String) :
    List.Sorted (fun a b : String => strLe a b = true) ((catCmdMain parts).drop 1) ∧
    ((catCmdMain parts).drop 1).Perm parts ∧
    (catCmdPkg parts).drop 1 = parts := by
  haveI : IsTrans String (fun a b : String => strLe a b = true) :=
    ⟨fun a b c h1 h2 => charListLe_trans a.data b.data c.data h1 h2⟩
  haveI : IsTotal String (fun a b : String => strLe a b = true) :=
    ⟨fun a b => charListLe_total a.data b.data⟩
  refine ⟨?_, ?_, rfl⟩
  · simpa [catCmdMain, pySorted] using
      List.sorted_insertionSort (fun a b : String => strLe a b = true) parts
  · simpa [catCmdMain, pySorted] using
      List.perm_insertionSort (fun a b : String => strLe a b = true) parts

/-- Claim C4. The claim states that the progress callback never raises,
in particular that the ETA computation never divides by a zero
instantaneous rate. It does: with total size 10 and update interval 120,
a first callback of 5 bytes at instant 0 followed by a zero-byte callback
at instant 200 reaches the periodic-report branch with an update delta of
0, so the instantaneous rate is 0 and the ETA division raises
ZeroDivisionError. -/
theorem claim_C4_zero_rate_raises :
    meterRun (meterInit 10 120) [(0, 5), (200, 0)] = Except.error "ZeroDivisionError" := by
  have h1 : meterCall (meterInit 10 120) 0 5 =
      Except.ok ((⟨10, 120, 5, some 0, 5, -110, 5⟩ : MeterState), []) := by
    simp only [meterCall, meterInit]
    norm_num
  have h2 : meterCall (⟨10, 120, 5, some 0, 5, -110, 5⟩ : MeterState) 200 0 =
      Except.error "ZeroDivisionError" := by
    simp only [meterCall]
    norm_num
  simp only [meterRun, h1, h2]

/-- Claim C5, counterexample. The claim states that the upload ledger is
persisted after each successful part upload, not only once per logical-id.
On one unprocessed id with two fresh parts, the Main upload trace holds
two part transfers and a single ledger persist, with no persist between
the two transfers. -/
theorem claim_C5_counterexample :
    persistAfterEachTransfer (uploadMain [] [("f", ["a", "b"])] [] [] false).2 = false ∧
    ((uploadMain [] [("f", ["a", "b"])] [] [] false).2.filter Effect.isTransfer).length = 2 ∧
    ((uploadMain [] [("f", ["a", "b"])] [] [] false).2.filter Effect.isPut).length = 1 := by
  decide

/-- Claim C5, amended. In the Main upload and download stages the ledger
is persisted exactly once per processed logical-id, as the final action of
that id's processing, after all of its part transfers; an interruption
mid-id therefore loses at most that one id's recorded progress. -/
theorem claim_C5_amended (uploaded : List String) (src st : Ledger) (fname workDir : String) :
    ((uploadProcessOneMain uploaded src st fname).2.filter Effect.isPut) =
      [Effect.putJson "upload.json" (uploadProcessOneMain uploaded src st fname).1] ∧
    ((uploadProcessOneMain uploaded src st fname).2.getLast?) =
      some (Effect.putJson "upload.json" (uploadProcessOneMain uploaded src st fname).1) ∧
    ((downloadProcessOneMain workDir src st fname).2.filter Effect.isPut) =
      [Effect.putJson "download.json" (downloadProcessOneMain workDir src st fname).1] ∧
    ((downloadProcessOneMain workDir src st fname).2.getLast?) =
      some (Effect.putJson "download.json" (downloadProcessOneMain workDir src st fname).1) := by
  refine ⟨?_, ?_, ?_, ?_⟩
  · simp [uploadProcessOneMain, List.filter_append, uploadPartsMain_no_put, Effect.isPut]
  · simp [uploadProcessOneMain, List.getLast?_concat]
  · simp [downloadProcessOneMain, List.filter_append, downloadPartsMain_no_put, Effect.isPut]
  · have h : ∀ (e : Effect) (l : List Effect) (x : Effect),
        (e :: (l ++ [x])).getLast? = some x := by
      intro e l x
      rw [show e :: (l ++ [x]) = (e :: l) ++ [x] from rfl, List.getLast?_concat]
    simp [downloadProcessOneMain, h]

/-- Claim C6. get_from_json returns the caller-supplied default exactly in
the missing-blob branch: a NoSuchKey client error with a default supplied
yields the default, the same error without a default yields the raised
NoSuchKeyError (which propagates out of the stage, as in Main disassemble
fetching target.json with no default), and an existing blob yields its
decoded body whatever default was supplied. -/
theorem claim_C6 {α : Type} (d body : α) (dflt : Option α) :
    get_from_json (StoreResp.clientError "NoSuchKey") (some d) = Except.ok d ∧
    get_from_json (StoreResp.clientError "NoSuchKey") (none : Option α) =
      Except.error "NoSuchKeyError" ∧
    get_from_json (StoreResp.found body) dflt = Except.ok body :=
  ⟨rfl, rfl, rfl⟩

/-- Claim C7, counterexample. The claim states that the pipeline raises a
distinguishable error carrying the failing exit code of the second
process. The Pkg variant raises the bare tag: its error value for exit
code 1 and for exit code 2 is the same, so the raised error carries no
exit code. -/
theorem claim_C7_counterexample :
    runPipelinePkg ["c1"] ["c2"] 0 1 = runPipelinePkg ["c1"] ["c2"] 0 2 ∧
    runPipelinePkg ["c1"] ["c2"] 0 1 = Except.error "NonZeroReturnCode" ∧
    (1 : Int) ≠ 2 :=
  ⟨rfl, rfl, by decide⟩

/-- Claim C7, amended. Both variants raise exactly when the second process
exits non-zero and raise nothing when it exits zero, whatever the first
process returned; the Main variant's error carries the failing exit code
together with both command lines, while the Pkg variant's error carries
only the constant tag string. -/
theorem claim_C7_amended (cmd1 cmd2 : List String) (rc1 rc2 : Int) :
    (rc2 ≠ 0 →
      runPipelineMain cmd1 cmd2 rc1 rc2 =
        Except.error ("NonZeroReturnCode", rc2, cmd1, cmd2) ∧
      runPipelinePkg cmd1 cmd2 rc1 rc2 = Except.error "NonZeroReturnCode") ∧
    (rc2 = 0 →
      runPipelineMain cmd1 cmd2 rc1 rc2 = Except.ok () ∧
      runPipelinePkg cmd1 cmd2 rc1 rc2 = Except.ok ()) := by
  constructor
  · intro h
    constructor <;> simp [runPipelineMain, runPipelinePkg, h]
  · intro h
    constructor <;> simp [runPipelineMain, runPipelinePkg, h]

/-- Claim C7, witness of the amended statement at exit codes 1 and 0. -/
theorem claim_C7_witness :
    ((1 : Int) ≠ 0 ∧
      runPipelineMain ["a"] ["b"] 5 1 =
        Except.error ("NonZeroReturnCode", 1, ["a"], ["b"])) ∧
    ((0 : Int) = 0 ∧ runPipelinePkg ["a"] ["b"] 5 0 = Except.ok ()) :=
  ⟨⟨by decide, ((claim_C7_amended ["a"] ["b"] 5 1).1 (by decide)).1⟩,
   ⟨rfl, ((claim_C7_amended ["a"] ["b"] 5 0).2 rfl).2⟩⟩

/-- Claim C8, counterexample. The claim states that a dry run performs no
I/O beyond two read-only manifest fetches. Both dry-run stages fetch
three manifests (their own ledger, their source and the target
inventory): the dry-run traces hold three fetches, not at most two. -/
theorem claim_C8_counterexample :
    ((uploadMain [] [] [] [] true).2.filter Effect.isGet).length = 3 ∧
    ¬ (((uploadMain [] [] [] [] true).2.filter Effect.isGet).length ≤ 2) ∧
    ((disassembleMain "w" 10 [] [] [] (fun _ => false) (fun _ => []) true).2.filter
      Effect.isGet).length = 3 := by
  decide

/-- Claim C8, amended. For every state of the manifests, disassemble and
upload invoked with the dry-run flag report the delivered and unprocessed
sets and mutate nothing: the whole trace is the three read-only manifest
fetches followed by the two report lines, the in-memory ledger is left
exactly as fetched, and no mutating effect (ledger write, remote delete,
transfer, pipeline or filesystem change) occurs. -/
theorem claim_C8_amended (my0 src : Ledger) (target : Inventory) (uploaded : List String)
    (workDir : String) (partSize : Int) (origin : Inventory)
    (fsExists : String → Bool) (listDir : String → List String) :
    (∃ m1 m2, (uploadMain my0 src target uploaded true).2 =
      [Effect.getJson "upload.json", Effect.getJson "disassemble.json",
       Effect.getJson "target.json", Effect.logInfo m1, Effect.logInfo m2]) ∧
    (uploadMain my0 src target uploaded true).1 = my0 ∧
    ((uploadMain my0 src target uploaded true).2.filter Effect.isMutation) = [] ∧
    (∃ m1 m2, (disassembleMain workDir partSize my0 origin target fsExists listDir true).2 =
      [Effect.getJson "disassemble.json", Effect.getJson "origin.json",
       Effect.getJson "target.json", Effect.logInfo m1, Effect.logInfo m2]) ∧
    (disassembleMain workDir partSize my0 origin target fsExists listDir true).1 = my0 ∧
    ((disassembleMain workDir partSize my0 origin target fsExists listDir true).2.filter
      Effect.isMutation) = [] :=
  ⟨⟨_, _, rfl⟩, rfl, rfl, ⟨_, _, rfl⟩, rfl, rfl⟩

/-- Claim C9, counterexample. The claim states that a reassemble
destination conflict skips the move, reports the conflict and continues.
The Pkg variant does skip the move and continue, but reports nothing: on a
conflicting entry its trace holds no log line of any kind and no move,
though the entry was still processed. -/
theorem claim_C9_counterexample :
    ((reassemblePkg "w" "d" [("f", ["a"])] (fun p => p == "d/f")).filter Effect.isLog) = [] ∧
    ((reassemblePkg "w" "d" [("f", ["a"])] (fun p => p == "d/f")).filter Effect.isRename) = [] ∧
    ((reassemblePkg "w" "d" [("f", ["a"])] (fun p => p == "d/f")).filter
      Effect.isRunPipe).length = 1 := by
  decide

/-- Claim C9, amended. On a destination conflict both reassemble variants
skip the move — no rename reaches the existing destination file — and the
stage spawns one pipeline per ledger entry whatever the conflict check
answers, so processing continues with the remaining ids; the Main variant
reports the conflict with an error log line, the Pkg variant skips
silently. -/
theorem claim_C9_amended (workDir dstDir : String) (fsExists : String → Bool)
    (fname : String) (parts : List String)
    (h : fsExists (dstDir ++ "/" ++ basename fname) = true) :
    (reassembleBlockMain workDir dstDir fsExists (fname, parts) =
      [Effect.logInfo ("Processing " ++ fname),
       Effect.runPipe (catCmdMain parts) (zstdDecompCmd (workDir ++ "/" ++ basename fname)),
       Effect.utime (workDir ++ "/" ++ basename fname),
       Effect.chmod (workDir ++ "/" ++ basename fname),
       Effect.logError ((dstDir ++ "/" ++ basename fname) ++ " exists")]) ∧
    ((reassembleBlockMain workDir dstDir fsExists (fname, parts)).filter Effect.isRename = []) ∧
    (reassembleBlockPkg workDir dstDir fsExists (fname, parts) =
      [Effect.runPipe (catCmdPkg parts) (zstdDecompCmd (workDir ++ "/" ++ basename fname)),
       Effect.utime (workDir ++ "/" ++ basename fname),
       Effect.chmod (workDir ++ "/" ++ basename fname)]) ∧
    (∀ src : Ledger,
      ((reassembleMain workDir dstDir src fsExists).filter Effect.isRunPipe).length = src.length) := by
  refine ⟨?_, ?_, ?_, reassembleMain_processes_all workDir dstDir fsExists⟩
  · simp [reassembleBlockMain, h]
  · simp [reassembleBlockMain, h, Effect.isRename]
  · simp [reassembleBlockPkg, h]

/-- Claim C9, witness of the amended statement on a concrete conflicting
entry. -/
theorem claim_C9_witness :
    ((fun p => p == "d/f") ("d" ++ "/" ++ basename "f") = true) ∧
    (reassembleBlockPkg "w" "d" (fun p => p == "d/f") ("f", ["a"]) =
      [Effect.runPipe (catCmdPkg ["a"]) (zstdDecompCmd ("w" ++ "/" ++ basename "f")),
       Effect.utime ("w" ++ "/" ++ basename "f"),
       Effect.chmod ("w" ++ "/" ++ basename "f")]) :=
  ⟨by decide,
   (claim_C9_amended "w" "d" (fun p => p == "d/f") "f" ["a"] (by decide)).2.2.1⟩

/-- Claim C10. Every client error other than the NoSuchKey code — for
example AccessDenied — makes get_from_json raise NoSuchKeyError even when
a default was supplied, the very error raised for a missing blob without a
default, so such failures are indistinguishable from an absent manifest at
the call site. -/
theorem claim_C10 {α : Type} (code : String) (h : code ≠ "NoSuchKey") (dflt : Option α) :
    get_from_json (StoreResp.clientError code) dflt = Except.error "NoSuchKeyError" ∧
    get_from_json (StoreResp.clientError "NoSuchKey") (none : Option α) =
      Except.error "NoSuchKeyError" := by
  constructor
  · simp [get_from_json, h]
  · rfl

/-- Claim C10, witness at the AccessDenied code with a default supplied. -/
theorem claim_C10_witness :
    ("AccessDenied" ≠ "NoSuchKey") ∧
    get_from_json (StoreResp.clientError "AccessDenied") (some (0 : Int)) =
      Except.error "NoSuchKeyError" :=
  ⟨by decide, (claim_C10 "AccessDenied" (by decide) (some (0 : Int))).1⟩

end CtaIngest
